import Mathlib

/-! AGL stub library (`src/agl_stub.c`)

A shallow embedding of the AGL stub library: one Lean function per exported C
function, each taking the C arguments followed by the program state and
returning the C return value together with the state after the call.

The program state is the file-static error cell `agl_last_error` and the
caller-visible memory that output pointers may point into.  Memory is a map from
addresses to slot contents, one slot per pointed-to object; the null pointer is
address `0`.
-/

namespace AglStub

/-! ## C types -/

/-- C type `GLenum`, an unsigned integer. -/
abbrev GLenum := Nat

/-- C type `GLint`, a signed integer. -/
abbrev GLint := Int

/-- C type `GLuint`, an unsigned integer. -/
abbrev GLuint := Nat

/-- C type `GLboolean`. -/
abbrev GLboolean := Nat

/-- An address: the value of any C pointer.  Address `0` is the null pointer. -/
abbrev Ptr := Nat

/-- The handle type `typedef void* AGLPixelFormat`. -/
abbrev AGLPixelFormat := Ptr

/-- The handle type `typedef void* AGLContext`. -/
abbrev AGLContext := Ptr

/-- The handle type `typedef void* AGLDevice`. -/
abbrev AGLDevice := Ptr

/-- The handle type `typedef void* AGLDrawable`. -/
abbrev AGLDrawable := Ptr

/-- The handle type `typedef void* AGLRendererInfo`. -/
abbrev AGLRendererInfo := Ptr

/-- The handle type `typedef void* AGLPbuffer`. -/
abbrev AGLPbuffer := Ptr

/-- The null pointer of `<stddef.h>`. -/
def NULL : Ptr := 0

/-- The constant `GL_FALSE` of `<OpenGL/gl.h>`. -/
def GL_FALSE : GLboolean := 0

/-- The constant `GL_TRUE` of `<OpenGL/gl.h>`. -/
def GL_TRUE : GLboolean := 1

/-! ## AGL error codes -/

def AGL_NO_ERROR : GLenum := 0
def AGL_BAD_ATTRIBUTE : GLenum := 10000
def AGL_BAD_PROPERTY : GLenum := 10001
def AGL_BAD_PIXELFMT : GLenum := 10002
def AGL_BAD_RENDINFO : GLenum := 10003
def AGL_BAD_CONTEXT : GLenum := 10004
def AGL_BAD_DRAWABLE : GLenum := 10005
def AGL_BAD_GDEV : GLenum := 10006
def AGL_BAD_STATE : GLenum := 10007
def AGL_BAD_VALUE : GLenum := 10008
def AGL_BAD_MATCH : GLenum := 10009
def AGL_BAD_ENUM : GLenum := 10010
def AGL_BAD_OFFSCREEN : GLenum := 10011
def AGL_BAD_FULLSCREEN : GLenum := 10012
def AGL_BAD_WINDOW : GLenum := 10013
def AGL_BAD_POINTER : GLenum := 10014
def AGL_BAD_MODULE : GLenum := 10015
def AGL_BAD_ALLOC : GLenum := 10016
def AGL_BAD_CONNECTION : GLenum := 10017

/-! ## Program state -/

/-- Caller-visible memory: the content of the slot at each address. -/
abbrev Mem := Ptr → Int

/-- The state a call can observe or change: the global `agl_last_error` and the
memory reachable through pointer arguments. -/
structure State where
  agl_last_error : GLenum
  mem : Mem

/-- The C assignment `*p = v`. -/
def store (m : Mem) (p : Ptr) (v : Int) : Mem :=
  fun a => if a = p then v else m a

/-- The C statement `if (p) *p = v;`: the store happens only for a non-null `p`. -/
def storeIfNonNull (m : Mem) (p : Ptr) (v : Int) : Mem :=
  if p ≠ NULL then store m p v else m

/-- The state at program start: `static GLenum agl_last_error = AGL_NO_ERROR;`. -/
def initState (m : Mem) : State :=
  { agl_last_error := AGL_NO_ERROR, mem := m }

/-! ## Pixel format functions -/

def aglChoosePixelFormat (_gdevs : Ptr) (_ndev : GLint) (_attribs : Ptr) (s : State) :
    AGLPixelFormat × State :=
  (NULL, { s with agl_last_error := AGL_BAD_CONTEXT })

def aglDestroyPixelFormat (_pix : AGLPixelFormat) (s : State) : Unit × State :=
  ((), s)

def aglNextPixelFormat (_pix : AGLPixelFormat) (s : State) : AGLPixelFormat × State :=
  (NULL, s)

def aglDescribePixelFormat (_pix : AGLPixelFormat) (_attrib : GLint) (_value : Ptr) (s : State) :
    GLboolean × State :=
  (GL_FALSE, { s with agl_last_error := AGL_BAD_PIXELFMT })

def aglDevicesOfPixelFormat (_pix : AGLPixelFormat) (ndevs : Ptr) (s : State) : Ptr × State :=
  (NULL, { s with mem := storeIfNonNull s.mem ndevs 0 })

/-! ## Renderer information functions -/

def aglQueryRendererInfo (_gdevs : Ptr) (_ndev : GLint) (s : State) : AGLRendererInfo × State :=
  (NULL, { s with agl_last_error := AGL_BAD_CONTEXT })

def aglDestroyRendererInfo (_rend : AGLRendererInfo) (s : State) : Unit × State :=
  ((), s)

def aglNextRendererInfo (_rend : AGLRendererInfo) (s : State) : AGLRendererInfo × State :=
  (NULL, s)

def aglDescribeRenderer (_rend : AGLRendererInfo) (_prop : GLint) (_value : Ptr) (s : State) :
    GLboolean × State :=
  (GL_FALSE, { s with agl_last_error := AGL_BAD_RENDINFO })

/-! ## Context functions -/

def aglCreateContext (_pix : AGLPixelFormat) (_share : AGLContext) (s : State) :
    AGLContext × State :=
  (NULL, { s with agl_last_error := AGL_BAD_CONTEXT })

def aglDestroyContext (_ctx : AGLContext) (s : State) : GLboolean × State :=
  (GL_FALSE, { s with agl_last_error := AGL_BAD_CONTEXT })

def aglCopyContext (_src : AGLContext) (_dst : AGLContext) (_mask : GLuint) (s : State) :
    GLboolean × State :=
  (GL_FALSE, { s with agl_last_error := AGL_BAD_CONTEXT })

def aglUpdateContext (_ctx : AGLContext) (s : State) : GLboolean × State :=
  (GL_FALSE, { s with agl_last_error := AGL_BAD_CONTEXT })

def aglSetCurrentContext (_ctx : AGLContext) (s : State) : GLboolean × State :=
  (GL_FALSE, { s with agl_last_error := AGL_BAD_CONTEXT })

def aglGetCurrentContext (s : State) : AGLContext × State :=
  (NULL, s)

/-! ## Drawable functions -/

def aglSetDrawable (_ctx : AGLContext) (_draw : AGLDrawable) (s : State) : GLboolean × State :=
  (GL_FALSE, { s with agl_last_error := AGL_BAD_CONTEXT })

def aglSetFullScreen (_ctx : AGLContext) (_width _height _freq _device : GLint) (s : State) :
    GLboolean × State :=
  (GL_FALSE, { s with agl_last_error := AGL_BAD_FULLSCREEN })

def aglGetDrawable (_ctx : AGLContext) (s : State) : AGLDrawable × State :=
  (NULL, s)

/-! ## Virtual screen functions -/

def aglSetVirtualScreen (_ctx : AGLContext) (_screen : GLint) (s : State) : GLboolean × State :=
  (GL_FALSE, { s with agl_last_error := AGL_BAD_CONTEXT })

def aglGetVirtualScreen (_ctx : AGLContext) (s : State) : GLint × State :=
  (0, s)

/-! ## Offscreen rendering functions -/

def aglSetOffScreen (_ctx : AGLContext) (_width _height _rowbytes : GLint) (_baseaddr : Ptr)
    (s : State) : GLboolean × State :=
  (GL_FALSE, { s with agl_last_error := AGL_BAD_OFFSCREEN })

def aglGetOffScreen (_ctx : AGLContext) (_width _height _rowbytes _baseaddr : Ptr) (s : State) :
    GLboolean × State :=
  (GL_FALSE, { s with agl_last_error := AGL_BAD_CONTEXT })

/-! ## Option functions -/

def aglEnable (_ctx : AGLContext) (_pname : GLenum) (s : State) : GLboolean × State :=
  (GL_FALSE, { s with agl_last_error := AGL_BAD_CONTEXT })

def aglDisable (_ctx : AGLContext) (_pname : GLenum) (s : State) : GLboolean × State :=
  (GL_FALSE, { s with agl_last_error := AGL_BAD_CONTEXT })

def aglIsEnabled (_ctx : AGLContext) (_pname : GLenum) (s : State) : GLboolean × State :=
  (GL_FALSE, s)

def aglSetInteger (_ctx : AGLContext) (_pname : GLenum) (_params : Ptr) (s : State) :
    GLboolean × State :=
  (GL_FALSE, { s with agl_last_error := AGL_BAD_CONTEXT })

def aglGetInteger (_ctx : AGLContext) (_pname : GLenum) (_params : Ptr) (s : State) :
    GLboolean × State :=
  (GL_FALSE, { s with agl_last_error := AGL_BAD_CONTEXT })

/-! ## Font functions -/

def aglUseFont (_ctx : AGLContext) (_fontID _face _size _first _count _base : GLint) (s : State) :
    GLboolean × State :=
  (GL_FALSE, { s with agl_last_error := AGL_BAD_CONTEXT })

/-! ## Error functions -/

def aglGetError (s : State) : GLenum × State :=
  let err := s.agl_last_error
  (err, { s with agl_last_error := AGL_NO_ERROR })

/-- The `switch` of `aglErrorString`: the case labels are pairwise distinct, so
the first matching test is the case taken. -/
def errorStringOf (code : GLenum) : String :=
  if code = AGL_NO_ERROR then "No error"
  else if code = AGL_BAD_ATTRIBUTE then "Bad attribute"
  else if code = AGL_BAD_PROPERTY then "Bad property"
  else if code = AGL_BAD_PIXELFMT then "Bad pixel format"
  else if code = AGL_BAD_RENDINFO then "Bad renderer info"
  else if code = AGL_BAD_CONTEXT then "Bad context"
  else if code = AGL_BAD_DRAWABLE then "Bad drawable"
  else if code = AGL_BAD_GDEV then "Bad graphics device"
  else if code = AGL_BAD_STATE then "Bad state"
  else if code = AGL_BAD_VALUE then "Bad value"
  else if code = AGL_BAD_MATCH then "Bad match"
  else if code = AGL_BAD_ENUM then "Bad enum"
  else if code = AGL_BAD_OFFSCREEN then "Bad offscreen"
  else if code = AGL_BAD_FULLSCREEN then "Bad fullscreen"
  else if code = AGL_BAD_WINDOW then "Bad window"
  else if code = AGL_BAD_POINTER then "Bad pointer"
  else if code = AGL_BAD_MODULE then "Bad module"
  else if code = AGL_BAD_ALLOC then "Bad alloc"
  else if code = AGL_BAD_CONNECTION then "Bad connection"
  else "Unknown error"

def aglErrorString (code : GLenum) (s : State) : String × State :=
  (errorStringOf code, s)

/-! ## Buffer management -/

def aglSwapBuffers (_ctx : AGLContext) (s : State) : Unit × State :=
  ((), s)

/-! ## Display functions -/

def aglConfigure (_pname : GLenum) (_param : GLuint) (s : State) : GLboolean × State :=
  (GL_FALSE, s)

def aglResetLibrary (s : State) : Unit × State :=
  ((), { s with agl_last_error := AGL_NO_ERROR })

/-! ## PBuffer functions -/

def aglCreatePBuffer (_width _height : GLint) (_target _internalFormat : GLenum)
    (_max_level : Int) (pbuffer : Ptr) (s : State) : GLboolean × State :=
  (GL_FALSE,
    { agl_last_error := AGL_BAD_ALLOC, mem := storeIfNonNull s.mem pbuffer (NULL : Ptr) })

def aglDestroyPBuffer (_pbuffer : AGLPbuffer) (s : State) : GLboolean × State :=
  (GL_FALSE, s)

def aglDescribePBuffer (_pbuffer : AGLPbuffer)
    (_width _height _target _internalFormat _max_level : Ptr) (s : State) : GLboolean × State :=
  (GL_FALSE, { s with agl_last_error := AGL_BAD_CONTEXT })

def aglTexImagePBuffer (_ctx : AGLContext) (_pbuffer : AGLPbuffer) (_source : GLint)
    (s : State) : GLboolean × State :=
  (GL_FALSE, { s with agl_last_error := AGL_BAD_CONTEXT })

def aglSetPBuffer (_ctx : AGLContext) (_pbuffer : AGLPbuffer) (_face _level _screen : GLint)
    (s : State) : GLboolean × State :=
  (GL_FALSE, { s with agl_last_error := AGL_BAD_CONTEXT })

def aglGetPBuffer (_ctx : AGLContext) (_pbuffer _face _level _screen : Ptr) (s : State) :
    GLboolean × State :=
  (GL_FALSE, { s with agl_last_error := AGL_BAD_CONTEXT })

/-! ## CGLContext interop -/

def aglGetCGLContext (_ctx : AGLContext) (cgl_ctx : Ptr) (s : State) : GLboolean × State :=
  (GL_FALSE,
    { agl_last_error := AGL_BAD_CONTEXT, mem := storeIfNonNull s.mem cgl_ctx (NULL : Ptr) })

def aglGetCGLPixelFormat (_pix : AGLPixelFormat) (cgl_pix : Ptr) (s : State) :
    GLboolean × State :=
  (GL_FALSE,
    { agl_last_error := AGL_BAD_PIXELFMT, mem := storeIfNonNull s.mem cgl_pix (NULL : Ptr) })

/-! ## Calls and call sequences -/

/-- One call of an exported function, with its arguments. -/
inductive Call where
  | aglChoosePixelFormat (gdevs : Ptr) (ndev : GLint) (attribs : Ptr)
  | aglDestroyPixelFormat (pix : AGLPixelFormat)
  | aglNextPixelFormat (pix : AGLPixelFormat)
  | aglDescribePixelFormat (pix : AGLPixelFormat) (attrib : GLint) (value : Ptr)
  | aglDevicesOfPixelFormat (pix : AGLPixelFormat) (ndevs : Ptr)
  | aglQueryRendererInfo (gdevs : Ptr) (ndev : GLint)
  | aglDestroyRendererInfo (rend : AGLRendererInfo)
  | aglNextRendererInfo (rend : AGLRendererInfo)
  | aglDescribeRenderer (rend : AGLRendererInfo) (prop : GLint) (value : Ptr)
  | aglCreateContext (pix : AGLPixelFormat) (share : AGLContext)
  | aglDestroyContext (ctx : AGLContext)
  | aglCopyContext (src dst : AGLContext) (mask : GLuint)
  | aglUpdateContext (ctx : AGLContext)
  | aglSetCurrentContext (ctx : AGLContext)
  | aglGetCurrentContext
  | aglSetDrawable (ctx : AGLContext) (draw : AGLDrawable)
  | aglSetFullScreen (ctx : AGLContext) (width height freq device : GLint)
  | aglGetDrawable (ctx : AGLContext)
  | aglSetVirtualScreen (ctx : AGLContext) (screen : GLint)
  | aglGetVirtualScreen (ctx : AGLContext)
  | aglSetOffScreen (ctx : AGLContext) (width height rowbytes : GLint) (baseaddr : Ptr)
  | aglGetOffScreen (ctx : AGLContext) (width height rowbytes baseaddr : Ptr)
  | aglEnable (ctx : AGLContext) (pname : GLenum)
  | aglDisable (ctx : AGLContext) (pname : GLenum)
  | aglIsEnabled (ctx : AGLContext) (pname : GLenum)
  | aglSetInteger (ctx : AGLContext) (pname : GLenum) (params : Ptr)
  | aglGetInteger (ctx : AGLContext) (pname : GLenum) (params : Ptr)
  | aglUseFont (ctx : AGLContext) (fontID face size first count base : GLint)
  | aglGetError
  | aglErrorString (code : GLenum)
  | aglSwapBuffers (ctx : AGLContext)
  | aglConfigure (pname : GLenum) (param : GLuint)
  | aglResetLibrary
  | aglCreatePBuffer (width height : GLint) (target internalFormat : GLenum) (max_level : Int)
      (pbuffer : Ptr)
  | aglDestroyPBuffer (pbuffer : AGLPbuffer)
  | aglDescribePBuffer (pbuffer : AGLPbuffer) (width height target internalFormat max_level : Ptr)
  | aglTexImagePBuffer (ctx : AGLContext) (pbuffer : AGLPbuffer) (source : GLint)
  | aglSetPBuffer (ctx : AGLContext) (pbuffer : AGLPbuffer) (face level screen : GLint)
  | aglGetPBuffer (ctx : AGLContext) (pbuffer face level screen : Ptr)
  | aglGetCGLContext (ctx : AGLContext) (cgl_ctx : Ptr)
  | aglGetCGLPixelFormat (pix : AGLPixelFormat) (cgl_pix : Ptr)

/-- The value a call returns, tagged with its C return type. -/
inductive Ret where
  | void
  | pointer (p : Ptr)
  | boolean (b : GLboolean)
  | int (i : GLint)
  | enum (e : GLenum)
  | string (str : String)
  deriving DecidableEq

/-- Tag the result of a `void` function. -/
def retVoid (r : Unit × State) : Ret × State := (Ret.void, r.2)

/-- Tag the result of a function returning a handle or pointer. -/
def retPointer (r : Ptr × State) : Ret × State := (Ret.pointer r.1, r.2)

/-- Tag the result of a function returning `GLboolean`. -/
def retBoolean (r : GLboolean × State) : Ret × State := (Ret.boolean r.1, r.2)

/-- Tag the result of a function returning `GLint`. -/
def retInt (r : GLint × State) : Ret × State := (Ret.int r.1, r.2)

/-- Tag the result of a function returning `GLenum`. -/
def retEnum (r : GLenum × State) : Ret × State := (Ret.enum r.1, r.2)

/-- Tag the result of a function returning a string. -/
def retString (r : String × State) : Ret × State := (Ret.string r.1, r.2)

/-- Perform one call: dispatch to the exported function it names. -/
def exec (c : Call) (s : State) : Ret × State :=
  match c with
  | .aglChoosePixelFormat gdevs ndev attribs =>
      retPointer (AglStub.aglChoosePixelFormat gdevs ndev attribs s)
  | .aglDestroyPixelFormat pix => retVoid (AglStub.aglDestroyPixelFormat pix s)
  | .aglNextPixelFormat pix => retPointer (AglStub.aglNextPixelFormat pix s)
  | .aglDescribePixelFormat pix attrib value =>
      retBoolean (AglStub.aglDescribePixelFormat pix attrib value s)
  | .aglDevicesOfPixelFormat pix ndevs => retPointer (AglStub.aglDevicesOfPixelFormat pix ndevs s)
  | .aglQueryRendererInfo gdevs ndev => retPointer (AglStub.aglQueryRendererInfo gdevs ndev s)
  | .aglDestroyRendererInfo rend => retVoid (AglStub.aglDestroyRendererInfo rend s)
  | .aglNextRendererInfo rend => retPointer (AglStub.aglNextRendererInfo rend s)
  | .aglDescribeRenderer rend prop value =>
      retBoolean (AglStub.aglDescribeRenderer rend prop value s)
  | .aglCreateContext pix share => retPointer (AglStub.aglCreateContext pix share s)
  | .aglDestroyContext ctx => retBoolean (AglStub.aglDestroyContext ctx s)
  | .aglCopyContext src dst mask => retBoolean (AglStub.aglCopyContext src dst mask s)
  | .aglUpdateContext ctx => retBoolean (AglStub.aglUpdateContext ctx s)
  | .aglSetCurrentContext ctx => retBoolean (AglStub.aglSetCurrentContext ctx s)
  | .aglGetCurrentContext => retPointer (AglStub.aglGetCurrentContext s)
  | .aglSetDrawable ctx draw => retBoolean (AglStub.aglSetDrawable ctx draw s)
  | .aglSetFullScreen ctx width height freq device =>
      retBoolean (AglStub.aglSetFullScreen ctx width height freq device s)
  | .aglGetDrawable ctx => retPointer (AglStub.aglGetDrawable ctx s)
  | .aglSetVirtualScreen ctx screen => retBoolean (AglStub.aglSetVirtualScreen ctx screen s)
  | .aglGetVirtualScreen ctx => retInt (AglStub.aglGetVirtualScreen ctx s)
  | .aglSetOffScreen ctx width height rowbytes baseaddr =>
      retBoolean (AglStub.aglSetOffScreen ctx width height rowbytes baseaddr s)
  | .aglGetOffScreen ctx width height rowbytes baseaddr =>
      retBoolean (AglStub.aglGetOffScreen ctx width height rowbytes baseaddr s)
  | .aglEnable ctx pname => retBoolean (AglStub.aglEnable ctx pname s)
  | .aglDisable ctx pname => retBoolean (AglStub.aglDisable ctx pname s)
  | .aglIsEnabled ctx pname => retBoolean (AglStub.aglIsEnabled ctx pname s)
  | .aglSetInteger ctx pname params => retBoolean (AglStub.aglSetInteger ctx pname params s)
  | .aglGetInteger ctx pname params => retBoolean (AglStub.aglGetInteger ctx pname params s)
  | .aglUseFont ctx fontID face size first count base =>
      retBoolean (AglStub.aglUseFont ctx fontID face size first count base s)
  | .aglGetError => retEnum (AglStub.aglGetError s)
  | .aglErrorString code => retString (AglStub.aglErrorString code s)
  | .aglSwapBuffers ctx => retVoid (AglStub.aglSwapBuffers ctx s)
  | .aglConfigure pname param => retBoolean (AglStub.aglConfigure pname param s)
  | .aglResetLibrary => retVoid (AglStub.aglResetLibrary s)
  | .aglCreatePBuffer width height target internalFormat max_level pbuffer =>
      retBoolean (AglStub.aglCreatePBuffer width height target internalFormat max_level pbuffer s)
  | .aglDestroyPBuffer pbuffer => retBoolean (AglStub.aglDestroyPBuffer pbuffer s)
  | .aglDescribePBuffer pbuffer width height target internalFormat max_level =>
      retBoolean
        (AglStub.aglDescribePBuffer pbuffer width height target internalFormat max_level s)
  | .aglTexImagePBuffer ctx pbuffer source =>
      retBoolean (AglStub.aglTexImagePBuffer ctx pbuffer source s)
  | .aglSetPBuffer ctx pbuffer face level screen =>
      retBoolean (AglStub.aglSetPBuffer ctx pbuffer face level screen s)
  | .aglGetPBuffer ctx pbuffer face level screen =>
      retBoolean (AglStub.aglGetPBuffer ctx pbuffer face level screen s)
  | .aglGetCGLContext ctx cgl_ctx => retBoolean (AglStub.aglGetCGLContext ctx cgl_ctx s)
  | .aglGetCGLPixelFormat pix cgl_pix => retBoolean (AglStub.aglGetCGLPixelFormat pix cgl_pix s)

/-- The state after a sequence of calls, performed first to last. -/
def run (s : State) (calls : List Call) : State :=
  calls.foldl (fun st c => (exec c st).2) s

/-! ## Specification vocabulary -/

/-- The 19 defined error codes: `AGL_NO_ERROR` and the 18 failure codes. -/
def definedCodes : List GLenum :=
  [AGL_NO_ERROR, AGL_BAD_ATTRIBUTE, AGL_BAD_PROPERTY, AGL_BAD_PIXELFMT, AGL_BAD_RENDINFO,
   AGL_BAD_CONTEXT, AGL_BAD_DRAWABLE, AGL_BAD_GDEV, AGL_BAD_STATE, AGL_BAD_VALUE,
   AGL_BAD_MATCH, AGL_BAD_ENUM, AGL_BAD_OFFSCREEN, AGL_BAD_FULLSCREEN, AGL_BAD_WINDOW,
   AGL_BAD_POINTER, AGL_BAD_MODULE, AGL_BAD_ALLOC, AGL_BAD_CONNECTION]

/-- The calls that clear the error cell: the error query and the library reset. -/
def isClear : Call → Bool
  | .aglGetError => true
  | .aglResetLibrary => true
  | _ => false

/-- The error-recording stub calls and the code each one records; `none` for a
call that records nothing. -/
def recordedCode : Call → Option GLenum
  | .aglChoosePixelFormat _ _ _ => some AGL_BAD_CONTEXT
  | .aglDescribePixelFormat _ _ _ => some AGL_BAD_PIXELFMT
  | .aglQueryRendererInfo _ _ => some AGL_BAD_CONTEXT
  | .aglDescribeRenderer _ _ _ => some AGL_BAD_RENDINFO
  | .aglCreateContext _ _ => some AGL_BAD_CONTEXT
  | .aglDestroyContext _ => some AGL_BAD_CONTEXT
  | .aglCopyContext _ _ _ => some AGL_BAD_CONTEXT
  | .aglUpdateContext _ => some AGL_BAD_CONTEXT
  | .aglSetCurrentContext _ => some AGL_BAD_CONTEXT
  | .aglSetDrawable _ _ => some AGL_BAD_CONTEXT
  | .aglSetFullScreen _ _ _ _ _ => some AGL_BAD_FULLSCREEN
  | .aglSetVirtualScreen _ _ => some AGL_BAD_CONTEXT
  | .aglSetOffScreen _ _ _ _ _ => some AGL_BAD_OFFSCREEN
  | .aglGetOffScreen _ _ _ _ _ => some AGL_BAD_CONTEXT
  | .aglEnable _ _ => some AGL_BAD_CONTEXT
  | .aglDisable _ _ => some AGL_BAD_CONTEXT
  | .aglSetInteger _ _ _ => some AGL_BAD_CONTEXT
  | .aglGetInteger _ _ _ => some AGL_BAD_CONTEXT
  | .aglUseFont _ _ _ _ _ _ _ => some AGL_BAD_CONTEXT
  | .aglCreatePBuffer _ _ _ _ _ _ => some AGL_BAD_ALLOC
  | .aglDescribePBuffer _ _ _ _ _ _ => some AGL_BAD_CONTEXT
  | .aglTexImagePBuffer _ _ _ => some AGL_BAD_CONTEXT
  | .aglSetPBuffer _ _ _ _ _ => some AGL_BAD_CONTEXT
  | .aglGetPBuffer _ _ _ _ _ => some AGL_BAD_CONTEXT
  | .aglGetCGLContext _ _ => some AGL_BAD_CONTEXT
  | .aglGetCGLPixelFormat _ _ => some AGL_BAD_PIXELFMT
  | _ => none

/-- The calls of a sequence that come after its latest clearing call (all of
them when the sequence has no clearing call), in their original order. -/
def sinceLastClear (calls : List Call) : List Call :=
  (calls.reverse.takeWhile (fun c => !isClear c)).reverse

/-- The code of the most recent error-recording call of a sequence, if any. -/
def lastRecorded (calls : List Call) : Option GLenum :=
  calls.reverse.findSome? recordedCode

/-- What the specification says an error query returns at the end of a call
sequence started with cell value `e0`: the code of the most recent
error-recording call after the latest clearing call; without such a call,
`AGL_NO_ERROR` when the sequence has a clearing call and `e0` when it has none. -/
def expectedError (e0 : GLenum) (calls : List Call) : GLenum :=
  match lastRecorded (sinceLastClear calls) with
  | some code => code
  | none => if calls.any isClear then AGL_NO_ERROR else e0

/-- The exported functions of the library, by name. -/
inductive Fn where
  | aglChoosePixelFormat
  | aglDestroyPixelFormat
  | aglNextPixelFormat
  | aglDescribePixelFormat
  | aglDevicesOfPixelFormat
  | aglQueryRendererInfo
  | aglDestroyRendererInfo
  | aglNextRendererInfo
  | aglDescribeRenderer
  | aglCreateContext
  | aglDestroyContext
  | aglCopyContext
  | aglUpdateContext
  | aglSetCurrentContext
  | aglGetCurrentContext
  | aglSetDrawable
  | aglSetFullScreen
  | aglGetDrawable
  | aglSetVirtualScreen
  | aglGetVirtualScreen
  | aglSetOffScreen
  | aglGetOffScreen
  | aglEnable
  | aglDisable
  | aglIsEnabled
  | aglSetInteger
  | aglGetInteger
  | aglUseFont
  | aglGetError
  | aglErrorString
  | aglSwapBuffers
  | aglConfigure
  | aglResetLibrary
  | aglCreatePBuffer
  | aglDestroyPBuffer
  | aglDescribePBuffer
  | aglTexImagePBuffer
  | aglSetPBuffer
  | aglGetPBuffer
  | aglGetCGLContext
  | aglGetCGLPixelFormat
  deriving DecidableEq

/-- The exported function a call invokes, its arguments dropped. -/
def Call.fn : Call → Fn
  | .aglChoosePixelFormat _ _ _ => Fn.aglChoosePixelFormat
  | .aglDestroyPixelFormat _ => Fn.aglDestroyPixelFormat
  | .aglNextPixelFormat _ => Fn.aglNextPixelFormat
  | .aglDescribePixelFormat _ _ _ => Fn.aglDescribePixelFormat
  | .aglDevicesOfPixelFormat _ _ => Fn.aglDevicesOfPixelFormat
  | .aglQueryRendererInfo _ _ => Fn.aglQueryRendererInfo
  | .aglDestroyRendererInfo _ => Fn.aglDestroyRendererInfo
  | .aglNextRendererInfo _ => Fn.aglNextRendererInfo
  | .aglDescribeRenderer _ _ _ => Fn.aglDescribeRenderer
  | .aglCreateContext _ _ => Fn.aglCreateContext
  | .aglDestroyContext _ => Fn.aglDestroyContext
  | .aglCopyContext _ _ _ => Fn.aglCopyContext
  | .aglUpdateContext _ => Fn.aglUpdateContext
  | .aglSetCurrentContext _ => Fn.aglSetCurrentContext
  | .aglGetCurrentContext => Fn.aglGetCurrentContext
  | .aglSetDrawable _ _ => Fn.aglSetDrawable
  | .aglSetFullScreen _ _ _ _ _ => Fn.aglSetFullScreen
  | .aglGetDrawable _ => Fn.aglGetDrawable
  | .aglSetVirtualScreen _ _ => Fn.aglSetVirtualScreen
  | .aglGetVirtualScreen _ => Fn.aglGetVirtualScreen
  | .aglSetOffScreen _ _ _ _ _ => Fn.aglSetOffScreen
  | .aglGetOffScreen _ _ _ _ _ => Fn.aglGetOffScreen
  | .aglEnable _ _ => Fn.aglEnable
  | .aglDisable _ _ => Fn.aglDisable
  | .aglIsEnabled _ _ => Fn.aglIsEnabled
  | .aglSetInteger _ _ _ => Fn.aglSetInteger
  | .aglGetInteger _ _ _ => Fn.aglGetInteger
  | .aglUseFont _ _ _ _ _ _ _ => Fn.aglUseFont
  | .aglGetError => Fn.aglGetError
  | .aglErrorString _ => Fn.aglErrorString
  | .aglSwapBuffers _ => Fn.aglSwapBuffers
  | .aglConfigure _ _ => Fn.aglConfigure
  | .aglResetLibrary => Fn.aglResetLibrary
  | .aglCreatePBuffer _ _ _ _ _ _ => Fn.aglCreatePBuffer
  | .aglDestroyPBuffer _ => Fn.aglDestroyPBuffer
  | .aglDescribePBuffer _ _ _ _ _ _ => Fn.aglDescribePBuffer
  | .aglTexImagePBuffer _ _ _ => Fn.aglTexImagePBuffer
  | .aglSetPBuffer _ _ _ _ _ => Fn.aglSetPBuffer
  | .aglGetPBuffer _ _ _ _ _ => Fn.aglGetPBuffer
  | .aglGetCGLContext _ _ => Fn.aglGetCGLContext
  | .aglGetCGLPixelFormat _ _ => Fn.aglGetCGLPixelFormat

/-- Whether the function a call invokes returns a value: `false` for the four
functions declared `void`. -/
def returnsValue : Call → Bool
  | .aglDestroyPixelFormat _ => false
  | .aglDestroyRendererInfo _ => false
  | .aglSwapBuffers _ => false
  | .aglResetLibrary => false
  | _ => true

/-- The failure sentinels: `NULL` for a handle or pointer result, `GL_FALSE` for
a `GLboolean` result, 0 for a `GLint` result. -/
def isFailureSentinel (r : Ret) : Prop :=
  r = Ret.pointer NULL ∨ r = Ret.boolean GL_FALSE ∨ r = Ret.int 0

/-- The output pointer a call stores through; `none` for a call of a function
that has no store through a pointer argument. -/
def storesThrough : Call → Option Ptr
  | .aglDevicesOfPixelFormat _ ndevs => some ndevs
  | .aglCreatePBuffer _ _ _ _ _ pbuffer => some pbuffer
  | .aglGetCGLContext _ cgl_ctx => some cgl_ctx
  | .aglGetCGLPixelFormat _ cgl_pix => some cgl_pix
  | _ => none

/-- The call of an exported function with every argument null or zero. -/
def Fn.nullCall : Fn → Call
  | .aglChoosePixelFormat => Call.aglChoosePixelFormat 0 0 0
  | .aglDestroyPixelFormat => Call.aglDestroyPixelFormat 0
  | .aglNextPixelFormat => Call.aglNextPixelFormat 0
  | .aglDescribePixelFormat => Call.aglDescribePixelFormat 0 0 0
  | .aglDevicesOfPixelFormat => Call.aglDevicesOfPixelFormat 0 0
  | .aglQueryRendererInfo => Call.aglQueryRendererInfo 0 0
  | .aglDestroyRendererInfo => Call.aglDestroyRendererInfo 0
  | .aglNextRendererInfo => Call.aglNextRendererInfo 0
  | .aglDescribeRenderer => Call.aglDescribeRenderer 0 0 0
  | .aglCreateContext => Call.aglCreateContext 0 0
  | .aglDestroyContext => Call.aglDestroyContext 0
  | .aglCopyContext => Call.aglCopyContext 0 0 0
  | .aglUpdateContext => Call.aglUpdateContext 0
  | .aglSetCurrentContext => Call.aglSetCurrentContext 0
  | .aglGetCurrentContext => Call.aglGetCurrentContext
  | .aglSetDrawable => Call.aglSetDrawable 0 0
  | .aglSetFullScreen => Call.aglSetFullScreen 0 0 0 0 0
  | .aglGetDrawable => Call.aglGetDrawable 0
  | .aglSetVirtualScreen => Call.aglSetVirtualScreen 0 0
  | .aglGetVirtualScreen => Call.aglGetVirtualScreen 0
  | .aglSetOffScreen => Call.aglSetOffScreen 0 0 0 0 0
  | .aglGetOffScreen => Call.aglGetOffScreen 0 0 0 0 0
  | .aglEnable => Call.aglEnable 0 0
  | .aglDisable => Call.aglDisable 0 0
  | .aglIsEnabled => Call.aglIsEnabled 0 0
  | .aglSetInteger => Call.aglSetInteger 0 0 0
  | .aglGetInteger => Call.aglGetInteger 0 0 0
  | .aglUseFont => Call.aglUseFont 0 0 0 0 0 0 0
  | .aglGetError => Call.aglGetError
  | .aglErrorString => Call.aglErrorString 0
  | .aglSwapBuffers => Call.aglSwapBuffers 0
  | .aglConfigure => Call.aglConfigure 0 0
  | .aglResetLibrary => Call.aglResetLibrary
  | .aglCreatePBuffer => Call.aglCreatePBuffer 0 0 0 0 0 0
  | .aglDestroyPBuffer => Call.aglDestroyPBuffer 0
  | .aglDescribePBuffer => Call.aglDescribePBuffer 0 0 0 0 0 0
  | .aglTexImagePBuffer => Call.aglTexImagePBuffer 0 0 0
  | .aglSetPBuffer => Call.aglSetPBuffer 0 0 0 0 0
  | .aglGetPBuffer => Call.aglGetPBuffer 0 0 0 0 0
  | .aglGetCGLContext => Call.aglGetCGLContext 0 0
  | .aglGetCGLPixelFormat => Call.aglGetCGLPixelFormat 0 0

/-! ## Theorems -/

/-- C1: read-and-clear law.  For every value `e` of the error cell (and any
memory), `aglGetError` returns `e`, leaves the cell equal to `AGL_NO_ERROR` and
the memory untouched, and a second `aglGetError` issued immediately afterwards
returns `AGL_NO_ERROR`. -/
theorem aglGetError_read_and_clear (e : GLenum) (m : Mem) :
    (aglGetError { agl_last_error := e, mem := m }).1 = e ∧
    (aglGetError { agl_last_error := e, mem := m }).2.agl_last_error = AGL_NO_ERROR ∧
    (aglGetError { agl_last_error := e, mem := m }).2.mem = m ∧
    (aglGetError (aglGetError { agl_last_error := e, mem := m }).2).1 = AGL_NO_ERROR :=
  ⟨rfl, rfl, rfl, rfl⟩

/-- A code outside the 19 defined ones falls to the `default` case. -/
theorem errorStringOf_of_not_defined (code : GLenum) (h : code ∉ definedCodes) :
    errorStringOf code = "Unknown error" := by
  simp only [definedCodes, List.mem_cons, List.mem_singleton, not_or] at h
  obtain ⟨h0, h1, h2, h3, h4, h5, h6, h7, h8, h9, h10, h11, h12, h13, h14, h15, h16, h17, h18⟩ := h
  simp only [errorStringOf, h0, h1, h2, h3, h4, h5, h6, h7, h8, h9, h10, h11, h12, h13, h14,
    h15, h16, h17, h18, if_false]

/-- The string of every code is non-empty. -/
theorem errorStringOf_ne_empty (code : GLenum) : errorStringOf code ≠ "" := by
  by_cases h : code ∈ definedCodes
  · simp only [definedCodes, List.mem_cons, List.mem_singleton, List.not_mem_nil, or_false] at h
    rcases h with h | h | h | h | h | h | h | h | h | h | h | h | h | h | h | h | h | h | h <;>
      subst h <;> decide
  · rw [errorStringOf_of_not_defined code h]
    decide

/-- C2: error-string totality.  For every `GLenum` code and every state,
`aglErrorString` returns a string (a string literal, hence non-null) that is
non-empty and leaves the state, the error cell included, unchanged; each of the
19 defined codes yields its fixed string; every code that is not one of the 19
defined codes yields "Unknown error", as do 0xFFFFFFFF (the `GLenum` value of
-1), 99999 and 123456. -/
theorem aglErrorString_total (code : GLenum) (s : State) :
    (aglErrorString code s).1 ≠ "" ∧
    (aglErrorString code s).2 = s ∧
    ((aglErrorString AGL_NO_ERROR s).1 = "No error" ∧
     (aglErrorString AGL_BAD_ATTRIBUTE s).1 = "Bad attribute" ∧
     (aglErrorString AGL_BAD_PROPERTY s).1 = "Bad property" ∧
     (aglErrorString AGL_BAD_PIXELFMT s).1 = "Bad pixel format" ∧
     (aglErrorString AGL_BAD_RENDINFO s).1 = "Bad renderer info" ∧
     (aglErrorString AGL_BAD_CONTEXT s).1 = "Bad context" ∧
     (aglErrorString AGL_BAD_DRAWABLE s).1 = "Bad drawable" ∧
     (aglErrorString AGL_BAD_GDEV s).1 = "Bad graphics device" ∧
     (aglErrorString AGL_BAD_STATE s).1 = "Bad state" ∧
     (aglErrorString AGL_BAD_VALUE s).1 = "Bad value" ∧
     (aglErrorString AGL_BAD_MATCH s).1 = "Bad match" ∧
     (aglErrorString AGL_BAD_ENUM s).1 = "Bad enum" ∧
     (aglErrorString AGL_BAD_OFFSCREEN s).1 = "Bad offscreen" ∧
     (aglErrorString AGL_BAD_FULLSCREEN s).1 = "Bad fullscreen" ∧
     (aglErrorString AGL_BAD_WINDOW s).1 = "Bad window" ∧
     (aglErrorString AGL_BAD_POINTER s).1 = "Bad pointer" ∧
     (aglErrorString AGL_BAD_MODULE s).1 = "Bad module" ∧
     (aglErrorString AGL_BAD_ALLOC s).1 = "Bad alloc" ∧
     (aglErrorString AGL_BAD_CONNECTION s).1 = "Bad connection") ∧
    (code ∉ definedCodes → (aglErrorString code s).1 = "Unknown error") ∧
    (aglErrorString 4294967295 s).1 = "Unknown error" ∧
    (aglErrorString 99999 s).1 = "Unknown error" ∧
    (aglErrorString 123456 s).1 = "Unknown error" := by
  refine ⟨errorStringOf_ne_empty code, rfl, ?_, errorStringOf_of_not_defined code, ?_, ?_, ?_⟩
  · refine ⟨?_, ?_, ?_, ?_, ?_, ?_, ?_, ?_, ?_, ?_, ?_, ?_, ?_, ?_, ?_, ?_, ?_, ?_, ?_⟩ <;>
      simp only [aglErrorString] <;> decide
  · simp only [aglErrorString]; decide
  · simp only [aglErrorString]; decide
  · simp only [aglErrorString]; decide

/-- C2, witness: 123456 is not a defined code and `aglErrorString` maps it to
"Unknown error" in the initial state. -/
theorem aglErrorString_total_witness :
    123456 ∉ definedCodes ∧
    (aglErrorString 123456 (initState (fun _ => 0))).1 = "Unknown error" :=
  ⟨by decide, (aglErrorString_total 123456 (initState (fun _ => 0))).2.2.2.1 (by decide)⟩

/-- C3: object-creation scenario.  For all arguments and every prior state,
each of `aglChoosePixelFormat`, `aglQueryRendererInfo` and `aglCreateContext`
returns the null handle and leaves the error cell equal to `AGL_BAD_CONTEXT`
(memory untouched); the next `aglGetError` returns `AGL_BAD_CONTEXT` and the
one after it returns `AGL_NO_ERROR`. -/
theorem object_creation_scenario (gdevs attribs : Ptr) (ndev : GLint)
    (pix : AGLPixelFormat) (share : AGLContext) (s : State) :
    ((aglChoosePixelFormat gdevs ndev attribs s).1 = NULL ∧
     (aglChoosePixelFormat gdevs ndev attribs s).2.agl_last_error = AGL_BAD_CONTEXT ∧
     (aglChoosePixelFormat gdevs ndev attribs s).2.mem = s.mem ∧
     (aglGetError (aglChoosePixelFormat gdevs ndev attribs s).2).1 = AGL_BAD_CONTEXT ∧
     (aglGetError (aglGetError (aglChoosePixelFormat gdevs ndev attribs s).2).2).1
       = AGL_NO_ERROR) ∧
    ((aglQueryRendererInfo gdevs ndev s).1 = NULL ∧
     (aglQueryRendererInfo gdevs ndev s).2.agl_last_error = AGL_BAD_CONTEXT ∧
     (aglQueryRendererInfo gdevs ndev s).2.mem = s.mem ∧
     (aglGetError (aglQueryRendererInfo gdevs ndev s).2).1 = AGL_BAD_CONTEXT ∧
     (aglGetError (aglGetError (aglQueryRendererInfo gdevs ndev s).2).2).1 = AGL_NO_ERROR) ∧
    ((aglCreateContext pix share s).1 = NULL ∧
     (aglCreateContext pix share s).2.agl_last_error = AGL_BAD_CONTEXT ∧
     (aglCreateContext pix share s).2.mem = s.mem ∧
     (aglGetError (aglCreateContext pix share s).2).1 = AGL_BAD_CONTEXT ∧
     (aglGetError (aglGetError (aglCreateContext pix share s).2).2).1 = AGL_NO_ERROR) :=
  ⟨⟨rfl, rfl, rfl, rfl, rfl⟩, ⟨rfl, rfl, rfl, rfl, rfl⟩, ⟨rfl, rfl, rfl, rfl, rfl⟩⟩

/-- C4, counterexample: started in the initial state with null and zero
arguments, `aglSetFullScreen` leaves the error cell at `AGL_BAD_FULLSCREEN` and
`aglSetOffScreen` leaves it at `AGL_BAD_OFFSCREEN`; neither is
`AGL_BAD_CONTEXT`. -/
theorem state_mutation_not_all_bad_context :
    (aglSetFullScreen NULL 0 0 0 0 (initState (fun _ => 0))).2.agl_last_error
      = AGL_BAD_FULLSCREEN ∧
    (aglSetFullScreen NULL 0 0 0 0 (initState (fun _ => 0))).2.agl_last_error
      ≠ AGL_BAD_CONTEXT ∧
    (aglSetOffScreen NULL 0 0 0 NULL (initState (fun _ => 0))).2.agl_last_error
      = AGL_BAD_OFFSCREEN ∧
    (aglSetOffScreen NULL 0 0 0 NULL (initState (fun _ => 0))).2.agl_last_error
      ≠ AGL_BAD_CONTEXT := by
  refine ⟨rfl, ?_, rfl, ?_⟩ <;> simp only [aglSetFullScreen, aglSetOffScreen] <;> decide

/-- C4, amended: for all arguments and every prior state, each of the eight
state-mutation operations returns `GL_FALSE` and leaves memory untouched;
`aglEnable`, `aglDisable`, `aglSetCurrentContext`, `aglSetDrawable`,
`aglSetVirtualScreen` and `aglSetInteger` leave the error cell equal to
`AGL_BAD_CONTEXT`, `aglSetFullScreen` leaves it equal to `AGL_BAD_FULLSCREEN`
and `aglSetOffScreen` leaves it equal to `AGL_BAD_OFFSCREEN`. -/
theorem state_mutation_ops (ctx : AGLContext) (pname : GLenum) (draw : AGLDrawable)
    (width height freq device rowbytes screen : GLint) (baseaddr params : Ptr) (s : State) :
    ((aglEnable ctx pname s).1 = GL_FALSE ∧
     (aglEnable ctx pname s).2.agl_last_error = AGL_BAD_CONTEXT ∧
     (aglEnable ctx pname s).2.mem = s.mem) ∧
    ((aglDisable ctx pname s).1 = GL_FALSE ∧
     (aglDisable ctx pname s).2.agl_last_error = AGL_BAD_CONTEXT ∧
     (aglDisable ctx pname s).2.mem = s.mem) ∧
    ((aglSetCurrentContext ctx s).1 = GL_FALSE ∧
     (aglSetCurrentContext ctx s).2.agl_last_error = AGL_BAD_CONTEXT ∧
     (aglSetCurrentContext ctx s).2.mem = s.mem) ∧
    ((aglSetDrawable ctx draw s).1 = GL_FALSE ∧
     (aglSetDrawable ctx draw s).2.agl_last_error = AGL_BAD_CONTEXT ∧
     (aglSetDrawable ctx draw s).2.mem = s.mem) ∧
    ((aglSetVirtualScreen ctx screen s).1 = GL_FALSE ∧
     (aglSetVirtualScreen ctx screen s).2.agl_last_error = AGL_BAD_CONTEXT ∧
     (aglSetVirtualScreen ctx screen s).2.mem = s.mem) ∧
    ((aglSetInteger ctx pname params s).1 = GL_FALSE ∧
     (aglSetInteger ctx pname params s).2.agl_last_error = AGL_BAD_CONTEXT ∧
     (aglSetInteger ctx pname params s).2.mem = s.mem) ∧
    ((aglSetFullScreen ctx width height freq device s).1 = GL_FALSE ∧
     (aglSetFullScreen ctx width height freq device s).2.agl_last_error = AGL_BAD_FULLSCREEN ∧
     (aglSetFullScreen ctx width height freq device s).2.mem = s.mem) ∧
    ((aglSetOffScreen ctx width height rowbytes baseaddr s).1 = GL_FALSE ∧
     (aglSetOffScreen ctx width height rowbytes baseaddr s).2.agl_last_error
       = AGL_BAD_OFFSCREEN ∧
     (aglSetOffScreen ctx width height rowbytes baseaddr s).2.mem = s.mem) :=
  ⟨⟨rfl, rfl, rfl⟩, ⟨rfl, rfl, rfl⟩, ⟨rfl, rfl, rfl⟩, ⟨rfl, rfl, rfl⟩, ⟨rfl, rfl, rfl⟩,
    ⟨rfl, rfl, rfl⟩, ⟨rfl, rfl, rfl⟩, ⟨rfl, rfl, rfl⟩⟩

/-- C5, the code at the failing inputs: with every memory slot holding 7 and
the output pointers set to the non-null addresses 100 to 104, the slots still
hold 7, not zero, after `aglDescribePixelFormat`, `aglDescribeRenderer`,
`aglGetInteger`, `aglGetPBuffer`, `aglGetOffScreen` and `aglDescribePBuffer`;
`aglGetCGLContext` and `aglGetCGLPixelFormat` do store null in their slot. -/
theorem describe_get_output_slots :
    (aglDescribePixelFormat NULL 0 100 (initState (fun _ => 7))).2.mem 100 = 7 ∧
    (aglDescribeRenderer NULL 0 100 (initState (fun _ => 7))).2.mem 100 = 7 ∧
    (aglGetInteger NULL 0 100 (initState (fun _ => 7))).2.mem 100 = 7 ∧
    ((aglGetPBuffer NULL 100 101 102 103 (initState (fun _ => 7))).2.mem 100 = 7 ∧
     (aglGetPBuffer NULL 100 101 102 103 (initState (fun _ => 7))).2.mem 101 = 7 ∧
     (aglGetPBuffer NULL 100 101 102 103 (initState (fun _ => 7))).2.mem 102 = 7 ∧
     (aglGetPBuffer NULL 100 101 102 103 (initState (fun _ => 7))).2.mem 103 = 7) ∧
    ((aglGetOffScreen NULL 100 101 102 103 (initState (fun _ => 7))).2.mem 100 = 7 ∧
     (aglGetOffScreen NULL 100 101 102 103 (initState (fun _ => 7))).2.mem 101 = 7 ∧
     (aglGetOffScreen NULL 100 101 102 103 (initState (fun _ => 7))).2.mem 102 = 7 ∧
     (aglGetOffScreen NULL 100 101 102 103 (initState (fun _ => 7))).2.mem 103 = 7) ∧
    ((aglDescribePBuffer NULL 100 101 102 103 104 (initState (fun _ => 7))).2.mem 100 = 7 ∧
     (aglDescribePBuffer NULL 100 101 102 103 104 (initState (fun _ => 7))).2.mem 101 = 7 ∧
     (aglDescribePBuffer NULL 100 101 102 103 104 (initState (fun _ => 7))).2.mem 102 = 7 ∧
     (aglDescribePBuffer NULL 100 101 102 103 104 (initState (fun _ => 7))).2.mem 103 = 7 ∧
     (aglDescribePBuffer NULL 100 101 102 103 104 (initState (fun _ => 7))).2.mem 104 = 7) ∧
    (aglGetCGLContext NULL 100 (initState (fun _ => 7))).2.mem 100 = 0 ∧
    (aglGetCGLPixelFormat NULL 100 (initState (fun _ => 7))).2.mem 100 = 0 := by
  refine ⟨rfl, rfl, rfl, ⟨rfl, rfl, rfl, rfl⟩, ⟨rfl, rfl, rfl, rfl⟩,
    ⟨rfl, rfl, rfl, rfl, rfl⟩, ?_, ?_⟩ <;> decide

/-- The cell after one call: cleared by a clearing call, set to the recorded
code by an error-recording call, kept by every other call. -/
theorem exec_cell (c : Call) (s : State) :
    (exec c s).2.agl_last_error
      = if isClear c then AGL_NO_ERROR else (recordedCode c).getD s.agl_last_error := by
  cases c <;> rfl

/-- Running a sequence extended by one call is running the sequence, then the call. -/
theorem run_concat (s : State) (calls : List Call) (c : Call) :
    run s (calls ++ [c]) = (exec c (run s calls)).2 := by
  simp only [run, List.foldl_append, List.foldl_cons, List.foldl_nil]

/-- The specified query result of a sequence extended by one call. -/
theorem expectedError_concat (e0 : GLenum) (calls : List Call) (c : Call) :
    expectedError e0 (calls ++ [c])
      = if isClear c then AGL_NO_ERROR else (recordedCode c).getD (expectedError e0 calls) := by
  by_cases hc : isClear c = true
  · simp [expectedError, sinceLastClear, lastRecorded, hc]
  · cases hr : recordedCode c with
    | none => simp [expectedError, sinceLastClear, lastRecorded, hc, hr]
    | some k => simp [expectedError, sinceLastClear, lastRecorded, hc, hr]

/-- C6: last-writer semantics of the error cell.  For every finite sequence of
exported calls with arbitrary arguments, started in any state, an `aglGetError`
issued at the end returns the code recorded by the most recent error-recording
call after the latest `aglGetError` or `aglResetLibrary` of the sequence; when
there is no such call it returns `AGL_NO_ERROR` if the sequence has an
`aglGetError` or `aglResetLibrary`, and the starting value of the cell if it has
none. -/
theorem aglGetError_last_writer (s : State) (calls : List Call) :
    (aglGetError (run s calls)).1 = expectedError s.agl_last_error calls := by
  show (run s calls).agl_last_error = expectedError s.agl_last_error calls
  induction calls using List.reverseRecOn with
  | nil => rfl
  | append_singleton init c ih => rw [run_concat, exec_cell, expectedError_concat, ih]

/-- Being one of the 19 listed numbers is being 0 or between 10000 and 10017. -/
theorem defined_range_arith (e : Nat) :
    (e = 0 ∨ e = 10000 ∨ e = 10001 ∨ e = 10002 ∨ e = 10003 ∨ e = 10004 ∨ e = 10005 ∨
      e = 10006 ∨ e = 10007 ∨ e = 10008 ∨ e = 10009 ∨ e = 10010 ∨ e = 10011 ∨ e = 10012 ∨
      e = 10013 ∨ e = 10014 ∨ e = 10015 ∨ e = 10016 ∨ e = 10017)
      ↔ (e = 0 ∨ (10000 ≤ e ∧ e ≤ 10017)) := by
  omega

/-- The defined codes are 0 and the numbers 10000 to 10017. -/
theorem mem_definedCodes_iff (e : GLenum) :
    e ∈ definedCodes ↔ e = 0 ∨ (10000 ≤ e ∧ e ≤ 10017) := by
  simp only [definedCodes, List.mem_cons, List.mem_singleton, List.not_mem_nil, or_false,
    AGL_NO_ERROR, AGL_BAD_ATTRIBUTE, AGL_BAD_PROPERTY, AGL_BAD_PIXELFMT, AGL_BAD_RENDINFO,
    AGL_BAD_CONTEXT, AGL_BAD_DRAWABLE, AGL_BAD_GDEV, AGL_BAD_STATE, AGL_BAD_VALUE,
    AGL_BAD_MATCH, AGL_BAD_ENUM, AGL_BAD_OFFSCREEN, AGL_BAD_FULLSCREEN, AGL_BAD_WINDOW,
    AGL_BAD_POINTER, AGL_BAD_MODULE, AGL_BAD_ALLOC, AGL_BAD_CONNECTION]
  exact defined_range_arith e

/-- Every code recorded by an error-recording call is one of the defined codes. -/
theorem recordedCode_mem_definedCodes (c : Call) (k : GLenum) (h : recordedCode c = some k) :
    k ∈ definedCodes := by
  cases c <;> simp only [recordedCode, Option.some.injEq, reduceCtorEq] at h <;> subst h <;> decide

/-- One call keeps the cell among the defined codes. -/
theorem exec_preserves_defined (c : Call) (s : State)
    (h : s.agl_last_error ∈ definedCodes) :
    (exec c s).2.agl_last_error ∈ definedCodes := by
  rw [exec_cell]
  by_cases hc : isClear c = true
  · rw [if_pos hc]
    decide
  · rw [if_neg hc]
    cases hr : recordedCode c with
    | none => exact h
    | some k => exact recordedCode_mem_definedCodes c k hr

/-- A sequence of calls keeps the cell among the defined codes. -/
theorem run_preserves_defined (calls : List Call) (s : State)
    (h : s.agl_last_error ∈ definedCodes) :
    (run s calls).agl_last_error ∈ definedCodes := by
  induction calls generalizing s with
  | nil => exact h
  | cons c rest ih => exact ih (exec c s).2 (exec_preserves_defined c s h)

/-- C7: error-cell invariant.  In every state reached from an initial state
(cell `AGL_NO_ERROR`, any memory) by a finite sequence of exported calls with
arbitrary arguments, the error cell holds one of the 19 defined codes; and every
exported call, made in a state whose cell holds a defined code, leaves a defined
code in the cell. -/
theorem error_cell_invariant (m : Mem) (calls : List Call) :
    (run (initState m) calls).agl_last_error ∈ definedCodes ∧
    ((run (initState m) calls).agl_last_error = 0 ∨
      (10000 ≤ (run (initState m) calls).agl_last_error ∧
        (run (initState m) calls).agl_last_error ≤ 10017)) ∧
    (∀ (c : Call) (s : State), s.agl_last_error ∈ definedCodes →
      (exec c s).2.agl_last_error ∈ definedCodes) :=
  have h0 : AGL_NO_ERROR ∈ definedCodes := by decide
  ⟨run_preserves_defined calls (initState m) h0,
    (mem_definedCodes_iff _).mp (run_preserves_defined calls (initState m) h0),
    exec_preserves_defined⟩

/-- C7, witness: in a state whose cell holds the defined code `AGL_BAD_ALLOC`,
the call `aglDescribeRenderer` leaves a defined code in the cell. -/
theorem error_cell_invariant_witness :
    AGL_BAD_ALLOC ∈ definedCodes ∧
    (exec (Call.aglDescribeRenderer 0 0 0)
      { agl_last_error := AGL_BAD_ALLOC, mem := fun _ => 0 }).2.agl_last_error ∈ definedCodes :=
  ⟨by decide,
    (error_cell_invariant (fun _ => 0) []).2.2 (Call.aglDescribeRenderer 0 0 0)
      { agl_last_error := AGL_BAD_ALLOC, mem := fun _ => 0 } (by decide)⟩

/-- C8: reset law.  For every prior value `e` of the error cell (and any
memory), `aglResetLibrary` leaves the cell equal to `AGL_NO_ERROR` and the
memory untouched, and the very next `aglGetError` returns `AGL_NO_ERROR`. -/
theorem aglResetLibrary_reset_law (e : GLenum) (m : Mem) :
    (aglResetLibrary { agl_last_error := e, mem := m }).2.agl_last_error = AGL_NO_ERROR ∧
    (aglResetLibrary { agl_last_error := e, mem := m }).2.mem = m ∧
    (aglGetError (aglResetLibrary { agl_last_error := e, mem := m }).2).1 = AGL_NO_ERROR :=
  ⟨rfl, rfl, rfl⟩

/-- C9: description and query operations.  For all arguments and every prior
state each of them returns `GL_FALSE`; `aglDescribePixelFormat` and
`aglGetCGLPixelFormat` leave the error cell at `AGL_BAD_PIXELFMT`,
`aglDescribeRenderer` leaves it at `AGL_BAD_RENDINFO`, and `aglGetInteger`,
`aglGetOffScreen`, `aglGetPBuffer` and `aglGetCGLContext` leave it at
`AGL_BAD_CONTEXT`. -/
theorem description_query_ops (pix : AGLPixelFormat) (rend : AGLRendererInfo)
    (ctx : AGLContext) (attrib prop : GLint) (pname : GLenum)
    (value params width height rowbytes baseaddr pbuffer face level screen cgl_ctx cgl_pix : Ptr)
    (s : State) :
    ((aglDescribePixelFormat pix attrib value s).1 = GL_FALSE ∧
     (aglDescribePixelFormat pix attrib value s).2.agl_last_error = AGL_BAD_PIXELFMT) ∧
    ((aglGetCGLPixelFormat pix cgl_pix s).1 = GL_FALSE ∧
     (aglGetCGLPixelFormat pix cgl_pix s).2.agl_last_error = AGL_BAD_PIXELFMT) ∧
    ((aglDescribeRenderer rend prop value s).1 = GL_FALSE ∧
     (aglDescribeRenderer rend prop value s).2.agl_last_error = AGL_BAD_RENDINFO) ∧
    ((aglGetInteger ctx pname params s).1 = GL_FALSE ∧
     (aglGetInteger ctx pname params s).2.agl_last_error = AGL_BAD_CONTEXT) ∧
    ((aglGetOffScreen ctx width height rowbytes baseaddr s).1 = GL_FALSE ∧
     (aglGetOffScreen ctx width height rowbytes baseaddr s).2.agl_last_error
       = AGL_BAD_CONTEXT) ∧
    ((aglGetPBuffer ctx pbuffer face level screen s).1 = GL_FALSE ∧
     (aglGetPBuffer ctx pbuffer face level screen s).2.agl_last_error = AGL_BAD_CONTEXT) ∧
    ((aglGetCGLContext ctx cgl_ctx s).1 = GL_FALSE ∧
     (aglGetCGLContext ctx cgl_ctx s).2.agl_last_error = AGL_BAD_CONTEXT) :=
  ⟨⟨rfl, rfl⟩, ⟨rfl, rfl⟩, ⟨rfl, rfl⟩, ⟨rfl, rfl⟩, ⟨rfl, rfl⟩, ⟨rfl, rfl⟩, ⟨rfl, rfl⟩⟩

/-- C10: pure-query operations.  For all arguments and every prior state `s`,
`aglGetCurrentContext` and `aglGetDrawable` return `NULL`,
`aglGetVirtualScreen` returns 0 and `aglIsEnabled` returns `GL_FALSE`, and each
leaves the whole state, the error cell included, equal to `s`. -/
theorem pure_query_ops (ctx : AGLContext) (pname : GLenum) (s : State) :
    ((aglGetCurrentContext s).1 = NULL ∧ (aglGetCurrentContext s).2 = s) ∧
    ((aglGetDrawable ctx s).1 = NULL ∧ (aglGetDrawable ctx s).2 = s) ∧
    ((aglGetVirtualScreen ctx s).1 = 0 ∧ (aglGetVirtualScreen ctx s).2 = s) ∧
    ((aglIsEnabled ctx pname s).1 = GL_FALSE ∧ (aglIsEnabled ctx pname s).2 = s) :=
  ⟨⟨rfl, rfl⟩, ⟨rfl, rfl⟩, ⟨rfl, rfl⟩, ⟨rfl, rfl⟩⟩

/-- C11: every return value signals failure.  For every call of an exported
function that returns a value, other than `aglGetError` and `aglErrorString`,
and every prior state, the returned value is the failure sentinel of its type
(`NULL`, `GL_FALSE` or 0); and no call at all returns a non-null handle or
`GL_TRUE`. -/
theorem return_values_signal_failure (c : Call) (s : State) :
    (returnsValue c = true → c.fn ≠ Fn.aglGetError → c.fn ≠ Fn.aglErrorString →
      isFailureSentinel (exec c s).1) ∧
    (∀ p : Ptr, (exec c s).1 = Ret.pointer p → p = NULL) ∧
    (exec c s).1 ≠ Ret.boolean GL_TRUE := by
  refine ⟨?_, ?_, ?_⟩
  · intro hv hg hs
    cases c <;>
      first
        | exact Or.inl rfl
        | exact Or.inr (Or.inl rfl)
        | exact Or.inr (Or.inr rfl)
        | exact absurd rfl hg
        | exact absurd rfl hs
        | exact absurd hv Bool.false_ne_true
  · intro p h
    cases c <;> first | exact (Ret.pointer.inj h).symm | exact Ret.noConfusion h
  · intro h
    cases c <;>
      first
        | (have h2 : Ret.boolean GL_FALSE = Ret.boolean GL_TRUE := h
           exact absurd (Ret.boolean.inj h2) (by decide))
        | exact Ret.noConfusion h

/-- C11, witness: `aglGetVirtualScreen` returns a value and is neither
`aglGetError` nor `aglErrorString`; called in the initial state it returns the
sentinel of its type. -/
theorem return_values_signal_failure_witness :
    returnsValue (Call.aglGetVirtualScreen 5) = true ∧
    isFailureSentinel (exec (Call.aglGetVirtualScreen 5) (initState (fun _ => 0))).1 :=
  ⟨rfl,
    (return_values_signal_failure (Call.aglGetVirtualScreen 5) (initState (fun _ => 0))).1
      rfl (by decide) (by decide)⟩

/-- The memory after one call: the guarded store of zero through the output
pointer for the four storing functions, the prior memory for every other call. -/
theorem exec_mem (c : Call) (s : State) :
    (exec c s).2.mem
      = match storesThrough c with
        | some q => storeIfNonNull s.mem q 0
        | none => s.mem := by
  cases c <;> rfl

/-- The guarded store through the null pointer writes nothing. -/
theorem storeIfNonNull_null (m : Mem) (v : Int) : storeIfNonNull m NULL v = m := by
  simp only [storeIfNonNull, ne_eq, not_true_eq_false, if_false]

/-- The guarded store through a non-null pointer is the store. -/
theorem storeIfNonNull_of_ne (m : Mem) (q : Ptr) (v : Int) (hq : q ≠ NULL) :
    storeIfNonNull m q v = store m q v := by
  simp only [storeIfNonNull, hq, ne_eq, not_false_eq_true, if_true]

/-- C12: null-argument safety.  Every call, with arbitrary arguments (null
pointers and zeros included) and in every state, returns a value and a state.
A call stores to memory only in `aglDevicesOfPixelFormat`, `aglCreatePBuffer`,
`aglGetCGLContext` and `aglGetCGLPixelFormat`, only through their output
pointer and only when that pointer is non-null; with a null output pointer
these four write no memory and return the same value and leave the same error
cell as with any other pointer `p`.  No call reads memory: the returned value
and the error cell are the same whatever the memory holds. -/
theorem null_argument_safety (c : Call) (s : State) (m' : Mem) (p : Ptr)
    (pix : AGLPixelFormat) (ctx : AGLContext) (width height : GLint)
    (target internalFormat : GLenum) (max_level : Int) :
    (∃ r st, exec c s = (r, st)) ∧
    (storesThrough c = none → (exec c s).2.mem = s.mem) ∧
    (∀ q, storesThrough c = some q → q = NULL → (exec c s).2.mem = s.mem) ∧
    (∀ q, storesThrough c = some q → q ≠ NULL → (exec c s).2.mem = store s.mem q 0) ∧
    ((exec c { s with mem := m' }).1 = (exec c s).1 ∧
     (exec c { s with mem := m' }).2.agl_last_error = (exec c s).2.agl_last_error) ∧
    ((aglDevicesOfPixelFormat pix NULL s).2.mem = s.mem ∧
     (aglDevicesOfPixelFormat pix NULL s).1 = (aglDevicesOfPixelFormat pix p s).1 ∧
     (aglDevicesOfPixelFormat pix NULL s).2.agl_last_error
       = (aglDevicesOfPixelFormat pix p s).2.agl_last_error) ∧
    ((aglCreatePBuffer width height target internalFormat max_level NULL s).2.mem = s.mem ∧
     (aglCreatePBuffer width height target internalFormat max_level NULL s).1
       = (aglCreatePBuffer width height target internalFormat max_level p s).1 ∧
     (aglCreatePBuffer width height target internalFormat max_level NULL s).2.agl_last_error
       = (aglCreatePBuffer width height target internalFormat max_level p s).2.agl_last_error) ∧
    ((aglGetCGLContext ctx NULL s).2.mem = s.mem ∧
     (aglGetCGLContext ctx NULL s).1 = (aglGetCGLContext ctx p s).1 ∧
     (aglGetCGLContext ctx NULL s).2.agl_last_error
       = (aglGetCGLContext ctx p s).2.agl_last_error) ∧
    ((aglGetCGLPixelFormat pix NULL s).2.mem = s.mem ∧
     (aglGetCGLPixelFormat pix NULL s).1 = (aglGetCGLPixelFormat pix p s).1 ∧
     (aglGetCGLPixelFormat pix NULL s).2.agl_last_error
       = (aglGetCGLPixelFormat pix p s).2.agl_last_error) := by
  refine ⟨⟨(exec c s).1, (exec c s).2, rfl⟩, ?_, ?_, ?_, ?_,
    ⟨storeIfNonNull_null s.mem 0, rfl, rfl⟩, ⟨storeIfNonNull_null s.mem 0, rfl, rfl⟩,
    ⟨storeIfNonNull_null s.mem 0, rfl, rfl⟩, ⟨storeIfNonNull_null s.mem 0, rfl, rfl⟩⟩
  · intro h
    rw [exec_mem, h]
  · intro q h hq
    rw [exec_mem, h, hq]
    exact storeIfNonNull_null _ _
  · intro q h hq
    rw [exec_mem, h]
    exact storeIfNonNull_of_ne _ _ _ hq
  · cases c <;> exact ⟨rfl, rfl⟩

/-- C12, witness: `aglGetCGLContext` stores through its output pointer; with
the non-null pointer 100 the memory after the call is the prior memory with a
zero stored at 100, so slot 100 holds 0 and slot 101 keeps its 7. -/
theorem null_argument_safety_witness :
    storesThrough (Call.aglGetCGLContext 1 100) = some 100 ∧ (100 : Ptr) ≠ NULL ∧
    (exec (Call.aglGetCGLContext 1 100) (initState (fun _ => 7))).2.mem 100 = 0 ∧
    (exec (Call.aglGetCGLContext 1 100) (initState (fun _ => 7))).2.mem 101 = 7 :=
  have h := (null_argument_safety (Call.aglGetCGLContext 1 100) (initState (fun _ => 7))
    (fun _ => 0) 0 0 0 0 0 0 0 0).2.2.2.1 100 rfl (by decide)
  ⟨rfl, by decide, by rw [h]; rfl, by rw [h]; rfl⟩

/-- C13: configure and buffer swap.  For all arguments and every prior state
`s`, `aglConfigure` returns `GL_FALSE` and leaves the state, the error cell
included, equal to `s`, and `aglSwapBuffers` leaves the state equal to `s`. -/
theorem configure_and_swap_frame (pname : GLenum) (param : GLuint) (ctx : AGLContext)
    (s : State) :
    (aglConfigure pname param s).1 = GL_FALSE ∧
    (aglConfigure pname param s).2 = s ∧
    (aglConfigure pname param s).2.agl_last_error = s.agl_last_error ∧
    (aglSwapBuffers ctx s).2 = s ∧
    (aglSwapBuffers ctx s).2.agl_last_error = s.agl_last_error :=
  ⟨rfl, rfl, rfl, rfl, rfl⟩

/-- The returned value and the error cell after a call of a function other than
`aglErrorString` are those of the same function called with null and zero
arguments on a zeroed memory, from the same prior error cell. -/
theorem exec_eq_nullCall (c : Call) (s : State) (h : c.fn ≠ Fn.aglErrorString) :
    (exec c s).1
      = (exec c.fn.nullCall { agl_last_error := s.agl_last_error, mem := fun _ => 0 }).1 ∧
    (exec c s).2.agl_last_error
      = (exec c.fn.nullCall
          { agl_last_error := s.agl_last_error, mem := fun _ => 0 }).2.agl_last_error := by
  cases c <;> first | exact ⟨rfl, rfl⟩ | exact absurd rfl h

/-- C14: stubs ignore their inputs.  For two calls of the same exported
function other than `aglErrorString`, with any two argument tuples, made in
states with the same prior error cell (and any memories), the returned values
are equal and the error cells afterwards are equal.  For a call of any function
other than `aglGetError`, the returned value is the same in any two prior
states.  A call is a function of the prior state and the arguments: equal calls
in equal states have equal outcomes. -/
theorem stubs_ignore_inputs (c1 c2 : Call) (s1 s2 : State) :
    (c1.fn = c2.fn → c1.fn ≠ Fn.aglErrorString →
      s1.agl_last_error = s2.agl_last_error →
      (exec c1 s1).1 = (exec c2 s2).1 ∧
      (exec c1 s1).2.agl_last_error = (exec c2 s2).2.agl_last_error) ∧
    (c1.fn ≠ Fn.aglGetError → (exec c1 s1).1 = (exec c1 s2).1) ∧
    (c1 = c2 → s1 = s2 → exec c1 s1 = exec c2 s2) := by
  refine ⟨?_, ?_, ?_⟩
  · intro h hne hcell
    have a1 := exec_eq_nullCall c1 s1 hne
    have a2 := exec_eq_nullCall c2 s2 (h ▸ hne)
    rw [a1.1, a1.2, a2.1, a2.2, h, hcell]
    exact ⟨rfl, rfl⟩
  · intro hne
    cases c1 <;> first | rfl | exact absurd rfl hne
  · intro hc hs
    rw [hc, hs]

/-- C14, witness: two calls of `aglSetFullScreen` with different arguments, in
states with the same error cell and different memories, return the same value
and leave the same error cell. -/
theorem stubs_ignore_inputs_witness :
    (exec (Call.aglSetFullScreen 1 640 480 60 0)
        { agl_last_error := AGL_BAD_ALLOC, mem := fun _ => 7 }).1
      = (exec (Call.aglSetFullScreen 2 800 600 75 1)
          { agl_last_error := AGL_BAD_ALLOC, mem := fun _ => 0 }).1 ∧
    (exec (Call.aglSetFullScreen 1 640 480 60 0)
        { agl_last_error := AGL_BAD_ALLOC, mem := fun _ => 7 }).2.agl_last_error
      = (exec (Call.aglSetFullScreen 2 800 600 75 1)
          { agl_last_error := AGL_BAD_ALLOC, mem := fun _ => 0 }).2.agl_last_error :=
  (stubs_ignore_inputs (Call.aglSetFullScreen 1 640 480 60 0)
    (Call.aglSetFullScreen 2 800 600 75 1)
    { agl_last_error := AGL_BAD_ALLOC, mem := fun _ => 7 }
    { agl_last_error := AGL_BAD_ALLOC, mem := fun _ => 0 }).1 rfl (by decide) rfl

/-- C15: pixel-buffer creation.  For all arguments and every prior state,
`aglCreatePBuffer` returns `GL_FALSE` and leaves the error cell equal to
`AGL_BAD_ALLOC`; when `pbuffer` is non-null the slot it points to holds the
null handle (zero) afterwards, whatever it held before, and every other slot
keeps its content; the next `aglGetError` returns `AGL_BAD_ALLOC` and the one
after it returns `AGL_NO_ERROR`. -/
theorem aglCreatePBuffer_scenario (width height : GLint) (target internalFormat : GLenum)
    (max_level : Int) (pbuffer : Ptr) (s : State) :
    (aglCreatePBuffer width height target internalFormat max_level pbuffer s).1 = GL_FALSE ∧
    (aglCreatePBuffer width height target internalFormat max_level pbuffer s).2.agl_last_error
      = AGL_BAD_ALLOC ∧
    (pbuffer ≠ NULL →
      (aglCreatePBuffer width height target internalFormat max_level pbuffer s).2.mem pbuffer
        = 0) ∧
    (∀ a : Ptr, a ≠ pbuffer →
      (aglCreatePBuffer width height target internalFormat max_level pbuffer s).2.mem a
        = s.mem a) ∧
    (aglGetError
      (aglCreatePBuffer width height target internalFormat max_level pbuffer s).2).1
      = AGL_BAD_ALLOC ∧
    (aglGetError (aglGetError
      (aglCreatePBuffer width height target internalFormat max_level pbuffer s).2).2).1
      = AGL_NO_ERROR := by
  refine ⟨rfl, rfl, ?_, ?_, rfl, rfl⟩
  · intro hp
    show storeIfNonNull s.mem pbuffer 0 pbuffer = 0
    rw [storeIfNonNull_of_ne s.mem pbuffer 0 hp]
    simp only [store, if_true]
  · intro a ha
    show storeIfNonNull s.mem pbuffer 0 a = s.mem a
    by_cases hp : pbuffer = NULL
    · rw [hp, storeIfNonNull_null]
    · rw [storeIfNonNull_of_ne s.mem pbuffer 0 hp]
      simp only [store, ha, if_false]

/-- C15, witness: with every slot holding 7 and `pbuffer` the non-null address
100, slot 100 holds zero after `aglCreatePBuffer`. -/
theorem aglCreatePBuffer_scenario_witness :
    (100 : Ptr) ≠ NULL ∧
    (aglCreatePBuffer 64 64 0 0 0 100 (initState (fun _ => 7))).2.mem 100 = 0 :=
  ⟨by decide,
    (aglCreatePBuffer_scenario 64 64 0 0 0 100 (initState (fun _ => 7))).2.2.1 (by decide)⟩

/-- C16: object-destruction operations.  For every handle argument and every
prior state `s`, `aglDestroyContext` returns `GL_FALSE` and leaves the error
cell equal to `AGL_BAD_CONTEXT`; `aglDestroyPBuffer` returns `GL_FALSE` and
leaves the state equal to `s`; `aglDestroyPixelFormat` and
`aglDestroyRendererInfo` leave the state, the error cell included, equal to
`s`. -/
theorem object_destruction_ops (ctx : AGLContext) (pbuffer : AGLPbuffer)
    (pix : AGLPixelFormat) (rend : AGLRendererInfo) (s : State) :
    ((aglDestroyContext ctx s).1 = GL_FALSE ∧
     (aglDestroyContext ctx s).2.agl_last_error = AGL_BAD_CONTEXT ∧
     (aglDestroyContext ctx s).2.mem = s.mem) ∧
    ((aglDestroyPBuffer pbuffer s).1 = GL_FALSE ∧
     (aglDestroyPBuffer pbuffer s).2 = s ∧
     (aglDestroyPBuffer pbuffer s).2.agl_last_error = s.agl_last_error) ∧
    ((aglDestroyPixelFormat pix s).2 = s ∧
     (aglDestroyPixelFormat pix s).2.agl_last_error = s.agl_last_error) ∧
    ((aglDestroyRendererInfo rend s).2 = s ∧
     (aglDestroyRendererInfo rend s).2.agl_last_error = s.agl_last_error) :=
  ⟨⟨rfl, rfl, rfl⟩, ⟨rfl, rfl, rfl⟩, ⟨rfl, rfl⟩, ⟨rfl, rfl⟩⟩

/-- C17: enumeration operations fail silently.  For all arguments and every
prior state `s`, `aglNextPixelFormat` and `aglNextRendererInfo` return `NULL`
and leave the state equal to `s`; `aglDevicesOfPixelFormat` returns `NULL`,
leaves the error cell as it was, stores 0 in the slot `ndevs` points to when
`ndevs` is non-null and leaves every other slot alone.  Hence after
`aglResetLibrary` followed by any of the three, `aglGetError` returns
`AGL_NO_ERROR`. -/
theorem enumeration_ops_fail_silently (pix : AGLPixelFormat) (rend : AGLRendererInfo)
    (ndevs : Ptr) (s : State) :
    ((aglNextPixelFormat pix s).1 = NULL ∧ (aglNextPixelFormat pix s).2 = s) ∧
    ((aglNextRendererInfo rend s).1 = NULL ∧ (aglNextRendererInfo rend s).2 = s) ∧
    ((aglDevicesOfPixelFormat pix ndevs s).1 = NULL ∧
     (aglDevicesOfPixelFormat pix ndevs s).2.agl_last_error = s.agl_last_error ∧
     (ndevs ≠ NULL → (aglDevicesOfPixelFormat pix ndevs s).2.mem ndevs = 0) ∧
     (∀ a : Ptr, a ≠ ndevs → (aglDevicesOfPixelFormat pix ndevs s).2.mem a = s.mem a)) ∧
    ((aglGetError (aglNextPixelFormat pix (aglResetLibrary s).2).2).1 = AGL_NO_ERROR ∧
     (aglGetError (aglNextRendererInfo rend (aglResetLibrary s).2).2).1 = AGL_NO_ERROR ∧
     (aglGetError (aglDevicesOfPixelFormat pix ndevs (aglResetLibrary s).2).2).1
       = AGL_NO_ERROR) := by
  refine ⟨⟨rfl, rfl⟩, ⟨rfl, rfl⟩, ⟨rfl, rfl, ?_, ?_⟩, ⟨rfl, rfl, rfl⟩⟩
  · intro hp
    show storeIfNonNull s.mem ndevs 0 ndevs = 0
    rw [storeIfNonNull_of_ne s.mem ndevs 0 hp]
    simp only [store, if_true]
  · intro a ha
    show storeIfNonNull s.mem ndevs 0 a = s.mem a
    by_cases hp : ndevs = NULL
    · rw [hp, storeIfNonNull_null]
    · rw [storeIfNonNull_of_ne s.mem ndevs 0 hp]
      simp only [store, ha, if_false]

/-- C17, witness: with every slot holding 7 and `ndevs` the non-null address
100, slot 100 holds 0 after `aglDevicesOfPixelFormat`. -/
theorem enumeration_ops_fail_silently_witness :
    (100 : Ptr) ≠ NULL ∧
    (aglDevicesOfPixelFormat 0 100 (initState (fun _ => 7))).2.mem 100 = 0 :=
  ⟨by decide,
    (enumeration_ops_fail_silently 0 0 100 (initState (fun _ => 7))).2.2.1.2.2.1 (by decide)⟩

/-- C18: remaining context-bound operations.  For all arguments and every prior
state, each of `aglCopyContext`, `aglUpdateContext`, `aglUseFont`,
`aglDescribePBuffer`, `aglTexImagePBuffer` and `aglSetPBuffer` returns
`GL_FALSE` and leaves the error cell equal to `AGL_BAD_CONTEXT`, and an
`aglGetError` called next returns `AGL_BAD_CONTEXT`. -/
theorem context_bound_ops (src dst ctx : AGLContext) (mask : GLuint)
    (fontID face size first count base source level screen : GLint) (pbuffer : AGLPbuffer)
    (width height target internalFormat max_level : Ptr) (s : State) :
    ((aglCopyContext src dst mask s).1 = GL_FALSE ∧
     (aglCopyContext src dst mask s).2.agl_last_error = AGL_BAD_CONTEXT ∧
     (aglGetError (aglCopyContext src dst mask s).2).1 = AGL_BAD_CONTEXT) ∧
    ((aglUpdateContext ctx s).1 = GL_FALSE ∧
     (aglUpdateContext ctx s).2.agl_last_error = AGL_BAD_CONTEXT ∧
     (aglGetError (aglUpdateContext ctx s).2).1 = AGL_BAD_CONTEXT) ∧
    ((aglUseFont ctx fontID face size first count base s).1 = GL_FALSE ∧
     (aglUseFont ctx fontID face size first count base s).2.agl_last_error = AGL_BAD_CONTEXT ∧
     (aglGetError (aglUseFont ctx fontID face size first count base s).2).1
       = AGL_BAD_CONTEXT) ∧
    ((aglDescribePBuffer pbuffer width height target internalFormat max_level s).1
       = GL_FALSE ∧
     (aglDescribePBuffer pbuffer width height target internalFormat max_level
       s).2.agl_last_error = AGL_BAD_CONTEXT ∧
     (aglGetError
       (aglDescribePBuffer pbuffer width height target internalFormat max_level s).2).1
       = AGL_BAD_CONTEXT) ∧
    ((aglTexImagePBuffer ctx pbuffer source s).1 = GL_FALSE ∧
     (aglTexImagePBuffer ctx pbuffer source s).2.agl_last_error = AGL_BAD_CONTEXT ∧
     (aglGetError (aglTexImagePBuffer ctx pbuffer source s).2).1 = AGL_BAD_CONTEXT) ∧
    ((aglSetPBuffer ctx pbuffer face level screen s).1 = GL_FALSE ∧
     (aglSetPBuffer ctx pbuffer face level screen s).2.agl_last_error = AGL_BAD_CONTEXT ∧
     (aglGetError (aglSetPBuffer ctx pbuffer face level screen s).2).1 = AGL_BAD_CONTEXT) :=
  ⟨⟨rfl, rfl, rfl⟩, ⟨rfl, rfl, rfl⟩, ⟨rfl, rfl, rfl⟩, ⟨rfl, rfl, rfl⟩, ⟨rfl, rfl, rfl⟩,
    ⟨rfl, rfl, rfl⟩⟩

/-- The strings of the 19 defined codes are pairwise different. -/
theorem errorStringOf_nodup : (definedCodes.map errorStringOf).Nodup := by
  decide

/-- No defined code has the string of the `default` case. -/
theorem errorStringOf_defined_ne_unknown :
    ∀ code ∈ definedCodes, errorStringOf code ≠ "Unknown error" := by
  decide

/-- C19: error strings identify their code.  The 19 defined codes are pairwise
distinct, namely 0 and the numbers 10000 to 10017; two defined codes with the
same `aglErrorString` result are equal; no defined code yields
"Unknown error"; and `aglErrorString` yields "Unknown error" exactly for the
codes that are not defined. -/
theorem error_strings_identify_codes (a b code : GLenum) (s : State) :
    definedCodes.Nodup ∧ definedCodes.length = 19 ∧
    (code ∈ definedCodes ↔ code = 0 ∨ (10000 ≤ code ∧ code ≤ 10017)) ∧
    (a ∈ definedCodes → b ∈ definedCodes →
      (aglErrorString a s).1 = (aglErrorString b s).1 → a = b) ∧
    (code ∈ definedCodes → (aglErrorString code s).1 ≠ "Unknown error") ∧
    ((aglErrorString code s).1 = "Unknown error" ↔ code ∉ definedCodes) := by
  refine ⟨by decide, rfl, mem_definedCodes_iff code, ?_, ?_, ?_⟩
  · intro ha hb h
    exact List.inj_on_of_nodup_map errorStringOf_nodup ha hb h
  · exact errorStringOf_defined_ne_unknown code
  · constructor
    · intro h hmem
      exact errorStringOf_defined_ne_unknown code hmem h
    · exact errorStringOf_of_not_defined code

/-- C19, witness: the defined code `AGL_BAD_ALLOC` does not yield
"Unknown error", and the undefined code 10018 does. -/
theorem error_strings_identify_codes_witness :
    AGL_BAD_ALLOC ∈ definedCodes ∧
    (aglErrorString AGL_BAD_ALLOC (initState (fun _ => 0))).1 ≠ "Unknown error" ∧
    10018 ∉ definedCodes ∧
    (aglErrorString 10018 (initState (fun _ => 0))).1 = "Unknown error" :=
  ⟨by decide,
    (error_strings_identify_codes 0 0 AGL_BAD_ALLOC (initState (fun _ => 0))).2.2.2.2.1
      (by decide),
    by decide,
    (error_strings_identify_codes 0 0 10018 (initState (fun _ => 0))).2.2.2.2.2.2
      (by decide)⟩

end AglStub
